import Mathlib

/-!
Shallow embedding of the declaration / symbol-table model of V8's Torque
compiler (`src/torque/declarable.h`) and of the `PrototypeInfo` accessors
(`src/objects/prototype-info-inl.h`).

Modelling conventions:
* C++ pointers to arena-allocated `Declarable`s registered in scopes are
  modelled as numeric ids (`Nat`); `const Type*` identities are `Nat` as well,
  so a `TypeVector` is a `List Nat`.
* The `Scope` parent back-reference chain is acyclic by construction (a scope's
  parent is captured from the ambient `CurrentScope` when the scope is created,
  so parents strictly predate children); we model a scope together with its
  ancestor chain as an inductive tree, `root` for a scope whose parent pointer
  is null and `child` for one with a parent.
* `DCHECK` failures are modelled as the fatal outcome `Err.fatalCheck`
  (debug-build semantics: the process aborts).  A null-pointer dereference is
  the distinct outcome `Err.nullDeref`; dereferencing an empty
  `base::Optional` is `Err.emptyOptional`; `ReportError` (a recoverable,
  user-facing declaration diagnostic per the spec) is `Err.reportedError`.
* Mutating member functions are modelled by state passing: they take the
  receiver and return the updated receiver (inside `Except Err` when the C++
  can abort).
-/

/-- Outcomes of operations that can go wrong, keeping the failure tiers of the
source distinct: `fatalCheck` is a failed `DCHECK` (fatal abort in a debug
build), `nullDeref` is a null-pointer dereference (undefined behaviour),
`emptyOptional` is a dereference of an empty `base::Optional`, and
`reportedError` is a recoverable user-facing diagnostic raised via
`ReportError`. -/
inductive Err where
  | fatalCheck
  | nullDeref
  | emptyOptional
  | reportedError (msg : String)
  deriving DecidableEq, Repr

/-- `Declarable::Kind` from declarable.h: the closed set of eight kinds. -/
inductive Kind where
  | kModule
  | kMacro
  | kBuiltin
  | kRuntimeFunction
  | kGeneric
  | kTypeAlias
  | kExternConstant
  | kModuleConstant
  deriving DecidableEq, Repr

/-- The per-scope registry `declarations_ : unordered_map<string, vector<Declarable*>>`,
modelled as an association list from names to insertion-ordered buckets of
declarable ids.  Only per-name buckets are observable, so the (unordered)
iteration order of the map itself never matters. -/
abbrev Registry := List (String × List Nat)

/-- A `Scope` (declarable.h) together with its ancestor chain: its
`Declarable::Kind`, its registry, and its parent back-reference (`root` models
a null `parent_scope_`, `child p` a scope whose `parent_scope_` points to `p`).
The chain is acyclic by construction in the source, which the tree shape
models. -/
inductive Scope where
  | root (kind : Kind) (decls : Registry)
  | child (parent : Scope) (kind : Kind) (decls : Registry)
  deriving DecidableEq, Repr

/-- The `kind_` of a scope (every `Scope` is a `Declarable`). -/
def Scope.kindOf : Scope → Kind
  | .root k _ => k
  | .child _ k _ => k

/-- `Declarable::ParentScope()`: the captured parent back-reference
(`none` models a null pointer). -/
def Scope.parentOf : Scope → Option Scope
  | .root _ _ => none
  | .child p _ _ => some p

/-- The registry of a scope. -/
def Scope.decls : Scope → Registry
  | .root _ ds => ds
  | .child _ _ ds => ds

/-- Reading `declarations_[name]`: the bucket for `name`, empty when the name
was never registered (`operator[]` default-constructs an empty vector). -/
def Registry.bucket (ds : Registry) (name : String) : List Nat :=
  match ds.find? (fun p => p.1 == name) with
  | some p => p.2
  | none => []

/-- Appending a declarable id to the bucket for `name`
(`declarations_[name].push_back(declarable)`). -/
def Registry.add : Registry → String → Nat → Registry
  | [], name, d => [(name, [d])]
  | (m, l) :: rest, name, d =>
    if m == name then (m, l ++ [d]) :: rest
    else (m, l) :: Registry.add rest name d

/-- `Scope::LookupShallow(name)`: only this scope's bucket for `name`. -/
def Scope.lookupShallow (s : Scope) (name : String) : List Nat :=
  s.decls.bucket name

/-- `Scope::Lookup(name)`: start from the parent's full lookup (empty when the
parent pointer is null) and `push_back` each local declarable for `name` onto
it, mirroring the source's loop. -/
def Scope.lookup : Scope → String → List Nat
  | .root _ ds, name =>
    (ds.bucket name).foldl (fun r d => r ++ [d]) []
  | .child p _ ds, name =>
    (ds.bucket name).foldl (fun r d => r ++ [d]) (p.lookup name)

/-- `Scope::AddDeclarable(name, declarable)`: append under `name` (the C++
also returns the declarable; the interesting effect is the registry update). -/
def Scope.addDeclarable : Scope → String → Nat → Scope
  | .root k ds, name, d => .root k (ds.add name d)
  | .child p k ds, name, d => .child p k (ds.add name d)

/-- Constructing a `Scope(kind)`: the `Declarable` base captures
`parent_scope_ = CurrentScope::Get()` (the ambient current scope, possibly
null), and the registry starts empty. -/
def Scope.new (ambient : Option Scope) (kind : Kind) : Scope :=
  match ambient with
  | none => .root kind []
  | some p => .child p kind []

/-- Lookup through an ambient current-scope pointer: empty for a null scope. -/
def ambientLookup (ambient : Option Scope) (name : String) : List Nat :=
  match ambient with
  | none => []
  | some s => s.lookup name

/-- `CurrentModule()` (declarable.h): walk up from the given scope; return
the first scope whose dynamic cast to `Module` succeeds (kind `kModule`).
When the walk steps past a root scope the C++ evaluates
`scope->ParentScope()` with `scope == nullptr`, a null dereference
(`Module::DynamicCast(nullptr)` returns null and the loop does not stop),
modelled by `Err.nullDeref`. -/
def currentModuleFrom : Scope → Except Err Scope
  | .root k ds =>
    if k = Kind.kModule then .ok (.root k ds) else .error .nullDeref
  | .child p k ds =>
    if k = Kind.kModule then .ok (.child p k ds) else currentModuleFrom p

/-- The nearest enclosing scope of kind `kModule` on the parent chain,
starting at the scope itself: the specification's "nearest enclosing Module".
Stated from the spec's words, to be compared with `currentModuleFrom`. -/
def nearestModule : Scope → Option Scope
  | .root k ds =>
    if k = Kind.kModule then some (.root k ds) else none
  | .child p k ds =>
    if k = Kind.kModule then some (.child p k ds) else nearestModule p

/-- A plain `Declarable` as seen by the casting boilerplate: its immutable
`kind_`, the `parent_scope_` captured from the ambient current scope at
construction (a declarable id chain is irrelevant here, so the parent is kept
as an optional scope value), and the captured source position (line, column).
-/
structure Declarable where
  kind : Kind
  parent_scope : Option Scope
  pos : Nat × Nat
  deriving DecidableEq, Repr

/-- The classes that instantiate `DECLARE_DECLARABLE_BOILERPLATE`: eight
concrete kinds plus the abstract `Value` and `Callable` families. -/
inductive Target where
  | module
  | macroT
  | builtin
  | runtimeFunction
  | generic
  | typeAlias
  | externConstant
  | moduleConstant
  | value
  | callable
  deriving DecidableEq, Repr

/-- The `Is##x()` predicate used by the boilerplate for each target class:
pure kind tests, with `IsValue` and `IsCallable` the disjunctions from
declarable.h. -/
def Target.isA : Target → Kind → Bool
  | .module, k => k == Kind.kModule
  | .macroT, k => k == Kind.kMacro
  | .builtin, k => k == Kind.kBuiltin
  | .runtimeFunction, k => k == Kind.kRuntimeFunction
  | .generic, k => k == Kind.kGeneric
  | .typeAlias, k => k == Kind.kTypeAlias
  | .externConstant, k => k == Kind.kExternConstant
  | .moduleConstant, k => k == Kind.kModuleConstant
  | .value, k => k == Kind.kExternConstant || k == Kind.kModuleConstant
  | .callable, k =>
    k == Kind.kMacro || k == Kind.kBuiltin || k == Kind.kRuntimeFunction

/-- The boilerplate target belonging to each concrete `Declarable::Kind`. -/
def Kind.target : Kind → Target
  | .kModule => .module
  | .kMacro => .macroT
  | .kBuiltin => .builtin
  | .kRuntimeFunction => .runtimeFunction
  | .kGeneric => .generic
  | .kTypeAlias => .typeAlias
  | .kExternConstant => .externConstant
  | .kModuleConstant => .moduleConstant

/-- The strict `x::cast(declarable)`: `DCHECK(declarable->Is##x())`, then the
unchanged pointer reinterpreted; a kind mismatch is a failed `DCHECK`. -/
def Declarable.cast (t : Target) (d : Declarable) : Except Err Declarable :=
  if t.isA d.kind then .ok d else .error .fatalCheck

/-- `x::DynamicCast(declarable)`: null in, null out; null on a kind mismatch;
otherwise the unchanged pointer. -/
def Declarable.dynamicCast (t : Target) : Option Declarable → Option Declarable
  | none => none
  | some d => if t.isA d.kind then some d else none

/-- A `VisitResult` (from torque/types.h, not under src/), as constructed by
`ExternConstant`: a type identity plus a textual value.  Its internals decide
no claim; only its identity as a stored payload matters. -/
structure VisitResult where
  ty : Nat
  val : String
  deriving DecidableEq, Repr

/-- The state of a `Value` declarable: `kind_`, `type_`, `name_` and the
write-once `value_ : base::Optional<VisitResult>`. -/
structure ValueD where
  kind : Kind
  type : Nat
  name : String
  value : Option VisitResult
  deriving DecidableEq, Repr

/-- `Value::set_value(value)`: `DCHECK(!value_)` (fatal when the slot is
already populated), then store. -/
def ValueD.set_value (v : ValueD) (x : VisitResult) : Except Err ValueD :=
  if v.value.isSome then .error .fatalCheck
  else .ok { v with value := some x }

/-- `Value::value()`: `*value_`, a dereference of the optional slot, which on
an empty slot is a dereference of an empty `base::Optional`. -/
def ValueD.getValue (v : ValueD) : Except Err VisitResult :=
  match v.value with
  | some x => .ok x
  | none => .error .emptyOptional

/-- The `ModuleConstant` constructor: kind `kModuleConstant`, the given type
and name, value slot left empty (populated lazily later via `set_value`).
The unevaluated expression body is tracked separately from the value state
and decides no claim. -/
def mkModuleConstant (constant_name : String) (type : Nat) : ValueD :=
  { kind := Kind.kModuleConstant, type := type, name := constant_name,
    value := none }

/-- The `ExternConstant` constructor: kind `kExternConstant`, and
`set_value(VisitResult(type, value))` is called immediately, on a fresh (hence
empty) slot, so it always succeeds; the constructor is total. -/
def mkExternConstant (name : String) (type : Nat) (value : String) : ValueD :=
  { kind := Kind.kExternConstant, type := type, name := name,
    value := some { ty := type, val := value } }

/-- A Torque AST statement node (torque/ast.h, not under src/): its internals
decide no claim, only pointer identity, kept as a numeric id. -/
structure Statement where
  id : Nat
  deriving DecidableEq, Repr

/-- A `Statement*`: possibly null. -/
abbrev StmtPtr := Option Statement

/-- `ParameterTypes` (torque/types.h, not under src/). Modelled from the spec:
parameter types with a variadic flag ("parameter types with a variadic flag",
spec section 4.5); declarable.h reads `parameter_types.var_args`. -/
structure ParameterTypes where
  types : List Nat
  var_args : Bool
  deriving DecidableEq, Repr

/-- `Signature` (torque/types.h, not under src/). Modelled from the spec: "A
signature packages ordered parameter names, parameter types with a variadic
flag, a return type, and declared exit labels" (spec section 4.5);
declarable.h reads `parameter_names`, `parameter_types.var_args` and
`return_type`. -/
structure Signature where
  parameter_names : List String
  parameter_types : ParameterTypes
  return_type : Nat
  labels : List String
  deriving DecidableEq, Repr

/-- The state of a `Callable` (a `Scope` that also carries a name, signature,
transitioning flag, return counter and optional body). `scope` is its own
`Scope` state, whose kind is the callable's kind and whose parent is the
ambient current scope captured at construction. -/
structure Callable where
  scope : Scope
  name : String
  signature : Signature
  transitioning : Bool
  returns : Nat
  body : Option StmtPtr
  deriving DecidableEq, Repr

/-- `Callable::IsExternal()`: true exactly when `body_` holds no value. -/
def Callable.isExternal (c : Callable) : Bool :=
  !c.body.isSome

/-- The protected `Callable` constructor: builds the `Scope(kind)` base (which
captures the ambient current scope as parent and starts with an empty
registry), stores the fields, initializes `returns_` to 0, and
`DCHECK(!body || *body)` — fatal when the optional holds a null
`Statement*`. -/
def mkCallable (ambient : Option Scope) (kind : Kind) (name : String)
    (signature : Signature) (transitioning : Bool) (body : Option StmtPtr) :
    Except Err Callable :=
  match body with
  | some none => .error .fatalCheck
  | _ =>
    .ok { scope := Scope.new ambient kind, name := name,
          signature := signature, transitioning := transitioning,
          returns := 0, body := body }

/-- The `Macro` constructor: the `Callable` base with kind `kMacro`, then
`ReportError("Varargs are not supported for macros.")` when the signature's
parameter list is variadic.  Modelled from the spec: `ReportError`
(torque/utils.h, not under src/) raises a recoverable user-facing declaration
error ("recoverable declaration error, not fatal", spec section 4.5). -/
def mkMacro (ambient : Option Scope) (name : String) (signature : Signature)
    (transitioning : Bool) (body : Option StmtPtr) : Except Err Callable :=
  match mkCallable ambient Kind.kMacro name signature transitioning body with
  | .error e => .error e
  | .ok c =>
    if signature.parameter_types.var_args then
      .error (.reportedError "Varargs are not supported for macros.")
    else
      .ok c

/-- `Builtin::Kind`: the three calling conventions. -/
inductive BuiltinKind where
  | kStub
  | kFixedArgsJavaScript
  | kVarArgsJavaScript
  deriving DecidableEq, Repr

/-- A `Builtin`: its `Callable` base plus the calling-convention kind. -/
structure Builtin where
  callable : Callable
  builtin_kind : BuiltinKind
  deriving DecidableEq, Repr

/-- The `Builtin` constructor: the `Callable` base with kind `kBuiltin`, plus
the stored calling-convention kind; no additional check. -/
def mkBuiltin (ambient : Option Scope) (name : String) (bkind : BuiltinKind)
    (signature : Signature) (transitioning : Bool) (body : Option StmtPtr) :
    Except Err Builtin :=
  (mkCallable ambient Kind.kBuiltin name signature transitioning body).map
    (fun c => { callable := c, builtin_kind := bkind })

/-- The `RuntimeFunction` constructor: the `Callable` base with kind
`kRuntimeFunction` and `base::nullopt` as the body — always bodiless. -/
def mkRuntimeFunction (ambient : Option Scope) (name : String)
    (signature : Signature) (transitioning : Bool) : Except Err Callable :=
  mkCallable ambient Kind.kRuntimeFunction name signature transitioning none

/-- A `TypeVector` (`std::vector<const Type*>`): the sequence of resolved type
identities.  Equality and hashing in the specialization map are structural
over this sequence. -/
abbrev TypeVector := List Nat

/-- The state of a `Generic`: name, the raw `GenericDeclaration*` (kept as a
numeric AST-node id; torque/ast.h is not under src/ and its internals decide
no claim), and the specialization cache
`unordered_map<TypeVector, Callable*, base::hash<TypeVector>>`, modelled as an
association list with structural key equality; cached callables are kept as
numeric ids. -/
structure Generic where
  name : String
  declaration : Nat
  specializations : List (TypeVector × Nat)
  deriving DecidableEq, Repr

/-- The `Generic` constructor (kind `kGeneric`): empty specialization cache. -/
def mkGeneric (name : String) (declaration : Nat) : Generic :=
  { name := name, declaration := declaration, specializations := [] }

/-- `Generic::AddSpecialization(type_arguments, specialization)`:
`DCHECK_EQ(0, specializations_.count(type_arguments))` (fatal when the key is
already cached), then insert. -/
def Generic.addSpecialization (g : Generic) (type_arguments : TypeVector)
    (specialization : Nat) : Except Err Generic :=
  if g.specializations.countP (fun p => p.1 == type_arguments) == 0 then
    .ok { g with
          specializations := g.specializations ++ [(type_arguments, specialization)] }
  else
    .error .fatalCheck

/-- `Generic::GetSpecialization(type_arguments)`: the cached callable for a
structurally equal key, or absent. -/
def Generic.getSpecialization (g : Generic) (type_arguments : TypeVector) :
    Option Nat :=
  (g.specializations.find? (fun p => p.1 == type_arguments)).map (fun p => p.2)

/-- A heap object: either a `Map` (identified numerically) or some other heap
object.  Only the map/non-map distinction is observable through
`Map::cast`. -/
inductive HeapObject where
  | map (id : Nat)
  | other (id : Nat)
  deriving DecidableEq, Repr

/-- A `MaybeObject*`: a tagged reference that is a small integer, a strong
reference, a weak reference, or a cleared weak reference.  Modelled from the
spec: `MaybeObject` (src/objects/maybe-object.h, not under src/) with
`HeapObjectReference::Weak(obj)` building the weak tag, `IsWeakHeapObject()`
testing it (false for cleared), and `ToWeakHeapObject()` asserting the weak
tag (`DCHECK`) and returning the referenced object. -/
inductive MaybeObject where
  | smi (value : Int)
  | strong (obj : HeapObject)
  | weak (obj : HeapObject)
  | cleared
  deriving DecidableEq, Repr

/-- `MaybeObject::IsWeakHeapObject()`. -/
def MaybeObject.isWeakHeapObject : MaybeObject → Bool
  | .weak _ => true
  | _ => false

/-- `MaybeObject::ToWeakHeapObject()`: `DCHECK`-guarded untagging. -/
def MaybeObject.toWeakHeapObject : MaybeObject → Except Err HeapObject
  | .weak h => .ok h
  | _ => .error .fatalCheck

/-- `Map::cast(object)`: `DCHECK`-guarded downcast of a heap object to a map
id. -/
def mapCast : HeapObject → Except Err Nat
  | .map m => .ok m
  | .other _ => .error .fatalCheck

/-- The fields of a `PrototypeInfo` named by the accessor macros in
prototype-info-inl.h; `object_create_map` is the `MaybeObject` field declared
by `WEAK_ACCESSORS` (field reads and writes modelled from the spec:
object-macros.h is not under src/ and its accessors are plain field
access). -/
structure PrototypeInfo where
  weak_cell : Nat
  prototype_users : Nat
  object_create_map : MaybeObject
  registry_slot : Int
  bit_field : Nat
  deriving DecidableEq, Repr

/-- `PrototypeInfo::ObjectCreateMap()`:
`Map::cast(object_create_map()->ToWeakHeapObject())`. -/
def PrototypeInfo.objectCreateMap (info : PrototypeInfo) : Except Err Nat := do
  mapCast (← info.object_create_map.toWeakHeapObject)

/-- `PrototypeInfo::SetObjectCreateMap(info, map)`:
`info->set_object_create_map(HeapObjectReference::Weak(*map))`. -/
def PrototypeInfo.setObjectCreateMap (info : PrototypeInfo) (m : Nat) :
    PrototypeInfo :=
  { info with object_create_map := .weak (.map m) }

/-- `PrototypeInfo::HasObjectCreateMap()`:
`object_create_map()->IsWeakHeapObject()`. -/
def PrototypeInfo.hasObjectCreateMap (info : PrototypeInfo) : Bool :=
  info.object_create_map.isWeakHeapObject

/-! Helper lemmas shared by the claim theorems. -/

theorem foldl_pushback (l base : List Nat) :
    l.foldl (fun r d => r ++ [d]) base = base ++ l := by
  induction l generalizing base with
  | nil => simp
  | cons a t ih => simp [List.foldl, ih]

theorem find?_of_countP_zero {α : Type} (p : α → Bool) (l : List α)
    (h : l.countP p = 0) : l.find? p = none := by
  induction l with
  | nil => rfl
  | cons a t ih =>
    rw [List.countP_cons] at h
    by_cases hp : p a
    · simp [hp] at h
    · rw [if_neg hp] at h
      have ht : t.countP p = 0 := by omega
      simp [List.find?_cons, hp, ih ht]

theorem find?_append_split {α : Type} (p : α → Bool) (l₁ l₂ : List α) :
    (l₁ ++ l₂).find? p = ((l₁.find? p).elim (l₂.find? p) some) := by
  induction l₁ with
  | nil => simp
  | cons a t ih =>
    by_cases hp : p a <;> simp [List.find?_cons, hp, ih]

theorem bucket_add_same (ds : Registry) (name : String) (d : Nat) :
    (ds.add name d).bucket name = ds.bucket name ++ [d] := by
  induction ds with
  | nil => simp [Registry.add, Registry.bucket, List.find?]
  | cons e rest ih =>
    obtain ⟨m, l⟩ := e
    by_cases hm : m == name
    · simp [Registry.add, Registry.bucket, hm, List.find?_cons]
    · simp [Registry.add, Registry.bucket, hm, List.find?_cons] at ih ⊢
      exact ih

theorem target_isA (T k : Kind) : (Kind.target T).isA k = (k == T) := by
  cases T <;> cases k <;> rfl

/-! Claim theorems. -/

/-- C1: for every scope S and name n, S.Lookup(n) is the concatenation of the
parent's Lookup(n) (empty when the parent pointer is null) followed by S's own
locally registered declarables for n (its LookupShallow), so parent entries
always precede local ones; a root scope's Lookup(n) equals its
LookupShallow(n). -/
theorem lookup_parent_append_shallow (s : Scope) (n : String) :
    (s.lookup n = (s.parentOf.elim [] (fun p => p.lookup n)) ++ s.lookupShallow n)
    ∧ (∀ (k : Kind) (ds : Registry),
        Scope.lookup (.root k ds) n = Scope.lookupShallow (.root k ds) n) := by
  constructor
  · cases s with
    | root k ds =>
      simp [Scope.lookup, Scope.parentOf, Scope.lookupShallow, Scope.decls,
        foldl_pushback]
    | child p k ds =>
      simp [Scope.lookup, Scope.parentOf, Scope.lookupShallow, Scope.decls,
        foldl_pushback]
  · intro k ds
    simp [Scope.lookup, Scope.lookupShallow, Scope.decls, foldl_pushback]

/-- C3: for every declarable d and concrete target kind T, the strict cast
succeeds (returning d unchanged) exactly when d's kind is T, and is a fatal
DCHECK violation otherwise; DynamicCast returns an explicit absent result both
on a null input and on a kind mismatch, never failing. -/
theorem strict_cast_iff_kind (T : Kind) (d : Declarable) :
    (d.cast (Kind.target T) = .ok d ↔ d.kind = T)
    ∧ (d.kind ≠ T → d.cast (Kind.target T) = .error .fatalCheck)
    ∧ (Declarable.dynamicCast (Kind.target T) none = none)
    ∧ (Declarable.dynamicCast (Kind.target T) (some d) =
        if d.kind = T then some d else none) := by
  refine ⟨?_, ?_, rfl, ?_⟩
  · rw [Declarable.cast, target_isA]
    by_cases h : d.kind = T <;> simp [h]
  · intro h
    rw [Declarable.cast, target_isA]
    simp [h]
  · rw [Declarable.dynamicCast, target_isA]
    by_cases h : d.kind = T <;> simp [h]

/-- Witness for C3 at a concrete input: a strict cast of a kMacro declarable
to the Module target is a fatal check failure. -/
theorem strict_cast_iff_kind_witness :
    Declarable.cast (Kind.target Kind.kModule)
      { kind := Kind.kMacro, parent_scope := none, pos := (0, 0) } =
      .error .fatalCheck :=
  (strict_cast_iff_kind Kind.kModule
    { kind := Kind.kMacro, parent_scope := none, pos := (0, 0) }).2.1
    (by decide)

/-- C4: on a Value whose slot is unset, one set_value(x) succeeds, after which
value() returns exactly x and a second set_value on the same instance is a
fatal DCHECK violation. -/
theorem set_value_once (v : ValueD) (x y : VisitResult) (h : v.value = none) :
    ∃ v', v.set_value x = .ok v' ∧ v'.getValue = .ok x ∧
      v'.set_value y = .error .fatalCheck := by
  refine ⟨{ v with value := some x }, ?_, rfl, ?_⟩
  · simp [ValueD.set_value, h]
  · simp [ValueD.set_value]

/-- Witness for C4 at a concrete input: a fresh ModuleConstant. -/
theorem set_value_once_witness :
    ∃ v', (mkModuleConstant "c" 0).set_value ⟨0, "0"⟩ = .ok v' ∧
      v'.getValue = .ok ⟨0, "0"⟩ ∧
      v'.set_value ⟨1, "1"⟩ = .error .fatalCheck :=
  set_value_once (mkModuleConstant "c" 0) ⟨0, "0"⟩ ⟨1, "1"⟩ rfl

/-- C8: value() on a Value whose slot was never set dereferences an empty
optional (it is well-defined only after a set_value); in particular a freshly
constructed ModuleConstant has an unset slot, and after a successful
set_value(x) the dereference is well-defined and yields x. -/
theorem value_unset_deref (v : ValueD) (x : VisitResult) (name : String)
    (type : Nat) :
    (v.value = none → v.getValue = .error .emptyOptional)
    ∧ (∀ v', v.set_value x = .ok v' → v'.getValue = .ok x)
    ∧ (mkModuleConstant name type).value = none := by
  refine ⟨?_, ?_, rfl⟩
  · intro h
    simp [ValueD.getValue, h]
  · intro v' h
    rw [ValueD.set_value] at h
    by_cases hv : v.value.isSome
    · simp [hv] at h
    · simp [hv] at h
      rw [← h]
      rfl

/-- Witness for C8 at a concrete input: a fresh ModuleConstant's value() hits
the empty-optional dereference. -/
theorem value_unset_deref_witness :
    (mkModuleConstant "c" 0).getValue = .error .emptyOptional :=
  (value_unset_deref (mkModuleConstant "c" 0) ⟨0, "0"⟩ "c" 0).1 rfl

/-- C2: for a Generic, GetSpecialization(k) is absent on a fresh cache and
stays absent under adds of other keys; after a successful AddSpecialization(k,
c), GetSpecialization(k) returns exactly c; a second AddSpecialization with
the same key is a fatal DCHECK violation; and keys are compared structurally,
so any two key vectors with the same type sequence resolve to the same cache
entry. -/
theorem generic_specialization_cache (g : Generic) (k k' : TypeVector)
    (c c' : Nat) (name : String) (decl : Nat) :
    ((mkGeneric name decl).getSpecialization k = none)
    ∧ (∀ g', g.addSpecialization k c = .ok g' →
        g'.getSpecialization k = some c)
    ∧ (∀ g' c2, g.addSpecialization k c = .ok g' →
        g'.addSpecialization k c2 = .error .fatalCheck)
    ∧ (∀ g', k' ≠ k → g.addSpecialization k' c' = .ok g' →
        g'.getSpecialization k = g.getSpecialization k)
    ∧ (k = k' → g.getSpecialization k = g.getSpecialization k') := by
  have count_of_ok : ∀ (gin : Generic) (kv : TypeVector) (cv : Nat)
      (gout : Generic), gin.addSpecialization kv cv = .ok gout →
      gin.specializations.countP (fun p => p.1 == kv) = 0 ∧
      gout.specializations = gin.specializations ++ [(kv, cv)] := by
    intro gin kv cv gout h
    rw [Generic.addSpecialization] at h
    by_cases hc : gin.specializations.countP (fun p => p.1 == kv) = 0
    · simp [hc] at h
      exact ⟨hc, by rw [← h]⟩
    · simp [hc] at h
  refine ⟨rfl, ?_, ?_, ?_, ?_⟩
  · intro g' h
    obtain ⟨hc, hs⟩ := count_of_ok g k c g' h
    rw [Generic.getSpecialization, hs, find?_append_split,
      find?_of_countP_zero _ _ hc]
    simp [List.find?_cons]
  · intro g' c2 h
    obtain ⟨hc, hs⟩ := count_of_ok g k c g' h
    rw [Generic.addSpecialization, hs, List.countP_append]
    simp [List.countP_cons]
  · intro g' hk h
    obtain ⟨hc, hs⟩ := count_of_ok g k' c' g' h
    rw [Generic.getSpecialization, hs, find?_append_split]
    have hne : (([] : List (TypeVector × Nat)) ++ [(k', c')]).find?
        (fun p => p.1 == k) = none := by
      simp [List.find?_cons, hk]
    simp only [List.nil_append] at hne
    rw [hne]
    cases hfind : g.specializations.find? (fun p => p.1 == k) <;>
      simp [Generic.getSpecialization, hfind]
  · intro h
    rw [h]

/-- Witness for C2 at concrete inputs: adding the key [3] ++ [4] to a fresh
cache and reading it back through the structurally equal key [3, 4]. -/
theorem generic_specialization_cache_witness :
    Generic.getSpecialization
      { name := "Identity", declaration := 0,
        specializations := [([3, 4], 7)] } ([3] ++ [4]) = some 7 :=
  (generic_specialization_cache (mkGeneric "Identity" 0) ([3] ++ [4]) [] 7 0
    "Identity" 0).2.1
    { name := "Identity", declaration := 0, specializations := [([3, 4], 7)] }
    rfl

/-- Counterexample to C5 as stated: walking up from a root scope that is not a
module, CurrentModule() dereferences a null scope pointer (undefined
behaviour) — it does not perform a checked fatal abort. -/
theorem currentModule_no_fatal_check :
    currentModuleFrom (Scope.root Kind.kMacro []) = .error .nullDeref ∧
    currentModuleFrom (Scope.root Kind.kMacro []) ≠ .error .fatalCheck := by
  refine ⟨rfl, ?_⟩
  simp [currentModuleFrom]

/-- C5 amended: CurrentModule() walks upward via parent back-references and
returns the nearest enclosing scope of Module kind; when no Module is on the
chain it dereferences a null scope pointer (undefined behaviour, modelled as
the nullDeref outcome), never a checked fatal abort, and never an unbounded
loop (the walk is total on the acyclic chain). -/
theorem currentModule_nearest_or_nullderef (s : Scope) :
    (currentModuleFrom s = (nearestModule s).elim (.error .nullDeref) .ok)
    ∧ (∀ m, nearestModule s = some m → m.kindOf = Kind.kModule)
    ∧ currentModuleFrom s ≠ .error .fatalCheck := by
  induction s with
  | root k ds =>
    by_cases h : k = Kind.kModule <;>
      simp [currentModuleFrom, nearestModule, h, Scope.kindOf]
  | child p k ds ih =>
    by_cases h : k = Kind.kModule
    · simp [currentModuleFrom, nearestModule, h, Scope.kindOf]
    · simpa [currentModuleFrom, nearestModule, h, Scope.kindOf] using ih

/-- Witness for C5 (amended) at a concrete input: from a macro scope nested in
a module scope, CurrentModule() returns the enclosing module. -/
theorem currentModule_nearest_witness :
    currentModuleFrom
      (Scope.child (Scope.root Kind.kModule []) Kind.kMacro []) =
      .ok (Scope.root Kind.kModule []) := by
  have h := (currentModule_nearest_or_nullderef
    (Scope.child (Scope.root Kind.kModule []) Kind.kMacro [])).1
  simpa [nearestModule] using h

theorem mkCallable_ok (amb : Option Scope) (kind : Kind) (name : String)
    (sig : Signature) (trans : Bool) (body : Option StmtPtr)
    (hb : body ≠ some none) :
    mkCallable amb kind name sig trans body =
      .ok { scope := Scope.new amb kind, name := name, signature := sig,
            transitioning := trans, returns := 0, body := body } := by
  rcases body with _ | (_ | st)
  · rfl
  · exact absurd rfl hb
  · rfl

theorem mkCallable_ok_eq (amb : Option Scope) (kind : Kind) (name : String)
    (sig : Signature) (trans : Bool) (body : Option StmtPtr) (c : Callable)
    (h : mkCallable amb kind name sig trans body = .ok c) :
    c = { scope := Scope.new amb kind, name := name, signature := sig,
          transitioning := trans, returns := 0, body := body } := by
  rcases body with _ | (_ | st)
  · simp [mkCallable] at h
    exact h.symm
  · simp [mkCallable] at h
  · simp [mkCallable] at h
    exact h.symm

theorem mkMacro_ok_eq (amb : Option Scope) (name : String) (sig : Signature)
    (trans : Bool) (body : Option StmtPtr) (c : Callable)
    (h : mkMacro amb name sig trans body = .ok c) :
    sig.parameter_types.var_args = false ∧
    c = { scope := Scope.new amb Kind.kMacro, name := name, signature := sig,
          transitioning := trans, returns := 0, body := body } := by
  rw [mkMacro] at h
  cases hmc : mkCallable amb Kind.kMacro name sig trans body with
  | error e => rw [hmc] at h; simp at h
  | ok c0 =>
    rw [hmc] at h
    by_cases hv : sig.parameter_types.var_args
    · simp [hv] at h
    · simp [hv] at h
      have hc0 := mkCallable_ok_eq amb Kind.kMacro name sig trans body c0 hmc
      exact ⟨Bool.not_eq_true _ ▸ hv, h ▸ hc0⟩

theorem mkBuiltin_ok_eq (amb : Option Scope) (name : String)
    (bk : BuiltinKind) (sig : Signature) (trans : Bool)
    (body : Option StmtPtr) (b : Builtin)
    (h : mkBuiltin amb name bk sig trans body = .ok b) :
    b = { callable :=
            { scope := Scope.new amb Kind.kBuiltin, name := name,
              signature := sig, transitioning := trans, returns := 0,
              body := body },
          builtin_kind := bk } := by
  rw [mkBuiltin] at h
  cases hmc : mkCallable amb Kind.kBuiltin name sig trans body with
  | error e => rw [hmc] at h; simp [Except.map] at h
  | ok c0 =>
    rw [hmc] at h
    simp [Except.map] at h
    rw [← h, mkCallable_ok_eq amb Kind.kBuiltin name sig trans body c0 hmc]

theorem scope_new_props (amb : Option Scope) (k : Kind) (n : String)
    (d : Nat) :
    (Scope.new amb k).parentOf = amb
    ∧ (Scope.new amb k).lookupShallow n = []
    ∧ ((Scope.new amb k).addDeclarable n d).lookupShallow n = [d]
    ∧ ((Scope.new amb k).addDeclarable n d).lookup n =
        ambientLookup amb n ++ [d] := by
  cases amb with
  | none =>
    refine ⟨rfl, rfl, ?_, ?_⟩ <;>
      simp [Scope.new, Scope.addDeclarable, Scope.lookupShallow, Scope.decls,
        Registry.add, Registry.bucket, List.find?_cons, Scope.lookup,
        ambientLookup, foldl_pushback]
  | some p =>
    refine ⟨rfl, rfl, ?_, ?_⟩ <;>
      simp [Scope.new, Scope.addDeclarable, Scope.lookupShallow, Scope.decls,
        Registry.add, Registry.bucket, List.find?_cons, Scope.lookup,
        ambientLookup, foldl_pushback]

/-- C6: constructing a Macro over a variadic signature yields the recoverable
declaration error (never the fatal DCHECK outcome), while a Builtin and a
RuntimeFunction with the same signature construct successfully. -/
theorem macro_varargs_recoverable (amb : Option Scope) (name : String)
    (sig : Signature) (trans : Bool) (body : Option StmtPtr)
    (bk : BuiltinKind) (hv : sig.parameter_types.var_args = true)
    (hb : body ≠ some none) :
    (mkMacro amb name sig trans body =
      .error (.reportedError "Varargs are not supported for macros."))
    ∧ (mkMacro amb name sig trans body ≠ .error .fatalCheck)
    ∧ (∃ b, mkBuiltin amb name bk sig trans body = .ok b)
    ∧ (∃ r, mkRuntimeFunction amb name sig trans = .ok r) := by
  have hc := mkCallable_ok amb Kind.kMacro name sig trans body hb
  refine ⟨?_, ?_, ?_, ⟨_, rfl⟩⟩
  · rw [mkMacro, hc]
    simp [hv]
  · rw [mkMacro, hc]
    simp [hv]
  · exact ⟨_, by
      rw [mkBuiltin, mkCallable_ok amb Kind.kBuiltin name sig trans body hb]
      rfl⟩

/-- Witness for C6 at concrete inputs: a variadic signature on a Macro is the
recoverable varargs diagnostic. -/
theorem macro_varargs_recoverable_witness :
    mkMacro none "Foo"
      { parameter_names := ["args"],
        parameter_types := { types := [], var_args := true },
        return_type := 0, labels := [] } false none =
      .error (.reportedError "Varargs are not supported for macros.") :=
  (macro_varargs_recoverable none "Foo"
    { parameter_names := ["args"],
      parameter_types := { types := [], var_args := true },
      return_type := 0, labels := [] } false none BuiltinKind.kStub rfl
    (by simp)).1

/-- C7: for each concrete callable constructor, IsExternal() is true exactly
when no body was supplied at construction; a RuntimeFunction is always
constructed bodiless, so its IsExternal() is always true. -/
theorem isExternal_iff_bodiless (amb : Option Scope) (name : String)
    (sig : Signature) (trans : Bool) (body : Option StmtPtr)
    (bk : BuiltinKind) :
    (∀ c, mkMacro amb name sig trans body = .ok c →
        (c.isExternal = true ↔ body = none))
    ∧ (∀ b, mkBuiltin amb name bk sig trans body = .ok b →
        (b.callable.isExternal = true ↔ body = none))
    ∧ (∀ r, mkRuntimeFunction amb name sig trans = .ok r →
        r.isExternal = true) := by
  refine ⟨?_, ?_, ?_⟩
  · intro c h
    obtain ⟨-, hc⟩ := mkMacro_ok_eq amb name sig trans body c h
    rw [hc]
    cases body <;> simp [Callable.isExternal]
  · intro b h
    rw [mkBuiltin_ok_eq amb name bk sig trans body b h]
    cases body <;> simp [Callable.isExternal]
  · intro r h
    rw [mkRuntimeFunction] at h
    rw [mkCallable_ok_eq amb Kind.kRuntimeFunction name sig trans none r h]
    simp [Callable.isExternal]

/-- Witness for C7 at concrete inputs: a freshly constructed RuntimeFunction
is external. -/
theorem isExternal_iff_bodiless_witness :
    Callable.isExternal
      { scope := Scope.root Kind.kRuntimeFunction [], name := "f",
        signature :=
          { parameter_names := [],
            parameter_types := { types := [], var_args := true },
            return_type := 0, labels := [] },
        transitioning := false, returns := 0, body := none } = true :=
  (isExternal_iff_bodiless none "f"
    { parameter_names := [],
      parameter_types := { types := [], var_args := true },
      return_type := 0, labels := [] } false none BuiltinKind.kStub).2.2
    _ rfl

/-- C9: a callable constructed by any of the Macro, Builtin or RuntimeFunction
constructors is itself a scope whose parent back-reference is the ambient
current scope captured at construction and whose own registry starts empty
and supports AddDeclarable, LookupShallow and Lookup, with Lookup chaining
through the ambient scope (the callable forms its own namespace level). -/
theorem callable_is_scope (amb : Option Scope) (name : String)
    (sig : Signature) (trans : Bool) (body : Option StmtPtr)
    (bk : BuiltinKind) (n : String) (d : Nat) :
    (∀ c, mkMacro amb name sig trans body = .ok c →
        c.scope = Scope.new amb Kind.kMacro)
    ∧ (∀ b, mkBuiltin amb name bk sig trans body = .ok b →
        b.callable.scope = Scope.new amb Kind.kBuiltin)
    ∧ (∀ r, mkRuntimeFunction amb name sig trans = .ok r →
        r.scope = Scope.new amb Kind.kRuntimeFunction)
    ∧ (∀ k : Kind,
        (Scope.new amb k).parentOf = amb
        ∧ (Scope.new amb k).lookupShallow n = []
        ∧ ((Scope.new amb k).addDeclarable n d).lookupShallow n = [d]
        ∧ ((Scope.new amb k).addDeclarable n d).lookup n =
            ambientLookup amb n ++ [d]) := by
  refine ⟨?_, ?_, ?_, fun k => scope_new_props amb k n d⟩
  · intro c h
    rw [(mkMacro_ok_eq amb name sig trans body c h).2]
  · intro b h
    rw [mkBuiltin_ok_eq amb name bk sig trans body b h]
  · intro r h
    rw [mkRuntimeFunction] at h
    rw [mkCallable_ok_eq amb Kind.kRuntimeFunction name sig trans none r h]

/-- Witness for C9 at concrete inputs: a Macro constructed inside a module
scope hangs off that scope. -/
theorem callable_is_scope_witness :
    Callable.scope
      { scope := Scope.child (Scope.root Kind.kModule []) Kind.kMacro [],
        name := "m",
        signature :=
          { parameter_names := [],
            parameter_types := { types := [], var_args := false },
            return_type := 0, labels := [] },
        transitioning := false, returns := 0, body := none } =
      Scope.new (some (Scope.root Kind.kModule [])) Kind.kMacro :=
  (callable_is_scope (some (Scope.root Kind.kModule [])) "m"
    { parameter_names := [],
      parameter_types := { types := [], var_args := false },
      return_type := 0, labels := [] } false none BuiltinKind.kStub "x" 9).1
    _ rfl

/-- C10: after SetObjectCreateMap(p, m), HasObjectCreateMap(p) is true and
ObjectCreateMap(p) reads back exactly m through the stored weak reference;
HasObjectCreateMap is true exactly when the stored object_create_map field
holds a weak heap object. -/
theorem prototype_object_create_map (info : PrototypeInfo) (m : Nat) :
    (info.setObjectCreateMap m).hasObjectCreateMap = true
    ∧ (info.setObjectCreateMap m).objectCreateMap = .ok m
    ∧ (info.hasObjectCreateMap = true ↔
        ∃ h, info.object_create_map = .weak h) := by
  refine ⟨rfl, rfl, ?_⟩
  cases hc : info.object_create_map <;>
    simp [PrototypeInfo.hasObjectCreateMap, MaybeObject.isWeakHeapObject, hc]
